import Mathlib

/-!
Shallow embedding of the Arduino "Multi-Mode Digital Logic Educational Kit"
firmware (src/GroupProject.ino).

Modelling conventions:
* machine bytes are `Nat` with an explicit `% 256` wherever the C code
  narrows to `byte`;
* `millis()` timestamps are `Nat` (`unsigned long` wrap-around over 49 days
  is out of scope);
* a digital reading is a `Bool` with `true` = HIGH (released, pull-up idle)
  and `false` = LOW (pressed);
* the 16x2 LCD is modelled by the strings written to each row in a tick;
* the 74HC595 shift register ("Output Sink") is modelled by the byte
  latched to it in a tick;
* `analogRead` values and the `random` generator are oracle inputs.
-/

namespace GroupProject

/-- Debounce window: `const unsigned long debounceDelay = 50`. -/
def debounceDelay : Nat := 50

/-- Number of modes: `const byte totalModes = 4`. -/
def totalModes : Nat := 4

/-- Arduino `map()`:  `(x - in_min) * (out_max - out_min) / (in_max - in_min) + out_min`.
All ranges used by this sketch are nonnegative with `x ≥ inMin`, so C `long`
division coincides with `Nat` floor division. -/
def arduinoMap (x inMin inMax outMin outMax : Nat) : Nat :=
  (x - inMin) * (outMax - outMin) / (inMax - inMin) + outMin

/-- Digit character used by Arduino `Print::printNumber`: `0`-`9` then the
uppercase letters `A`-`F`. -/
def printDigit (n : Nat) : Char :=
  if n < 10 then Char.ofNat (48 + n) else Char.ofNat (55 + n)

/-- Fuel-driven digit loop of `Print::printNumber` in base 10 (the fuel only
makes the structural recursion explicit; `decRepr` always supplies enough). -/
def decReprAux : Nat → Nat → String
  | 0, _ => ""
  | fuel + 1, n =>
    if n < 10 then String.singleton (printDigit n)
    else decReprAux fuel (n / 10) ++ String.singleton (printDigit (n % 10))

/-- `lcd.print` of a nonnegative integer in base 10. -/
def decRepr (n : Nat) : String := decReprAux (n + 1) n

/-- Fuel-driven digit loop of `Print::printNumber` in base 16. -/
def ucHexAux : Nat → Nat → String
  | 0, _ => ""
  | fuel + 1, n =>
    if n < 16 then String.singleton (printDigit n)
    else ucHexAux fuel (n / 16) ++ String.singleton (printDigit (n % 16))

/-- `lcd.print(n, HEX)`: uppercase hexadecimal digits, no leading zeroes. -/
def ucHex (n : Nat) : String := ucHexAux (n + 1) n

/-- Bit sampler shared by manual and quiz mode: for `i` in `0..7`, bit `i`
is set exactly when switch `i` reads LOW.  `sw i = true` models
`digitalRead(switchPins[i]) == LOW` (switch pressed). -/
def sampleByte (sw : Nat → Bool) : Nat :=
  (List.range 8).foldl (fun st i => if sw i then st ||| (1 <<< i) else st) 0

/-- Logic-gate mode sampler: `inputA` from switches 0-3 and `inputB` from
switches 4-7, built in the same loop as in `logicGateMode`. -/
def sampleNibbles (sw : Nat → Bool) : Nat × Nat :=
  (List.range 4).foldl
    (fun p i =>
      (if sw i then p.1 ||| (1 <<< i) else p.1,
       if sw (i + 4) then p.2 ||| (1 <<< i) else p.2))
    (0, 0)

/-- Per-tick output of a stateless mode: the byte latched to the shift
register and the text written to the two LCD rows. -/
structure ModeOut where
  sink : Nat
  row0 : String
  row1 : String

/-- `manualMode()`: sample the switches, latch the byte to the LEDs and
render it in decimal (row 0) and zero-padded uppercase hex (row 1). -/
def manualTick (sw : Nat → Bool) : ModeOut :=
  let state := sampleByte sw
  { sink := state,
    row0 := "DEC:" ++ decRepr state ++ "      ",
    row1 := "HEX:0x" ++ (if state < 16 then "0" else "") ++ ucHex state ++ "   " }

/-- Quiz-mode state: `byte quizTarget` and `bool questionDisplayed`. -/
structure QuizState where
  quizTarget : Nat
  questionDisplayed : Bool

/-- Observable effects of one `quizMode()` call. -/
structure QuizOut where
  state : QuizState
  cleared : Bool
  row0 : Option String
  row1 : Option String
  sink : Option Nat
  pauseMs : Nat
  drewTarget : Bool

/-- `quizMode()`.  `random(0, 256)` is modelled by an oracle value `rand`
reduced mod 256 (the Arduino generator returns `rand % 256` for this call).
The draw branch returns before reading the switches, hence `sink := none`. -/
def quizTick (s : QuizState) (rand : Nat) (sw : Nat → Bool) : QuizOut :=
  if s.questionDisplayed = false then
    let t := rand % 256
    { state := ⟨t, true⟩, cleared := true,
      row0 := some ("DEC:" ++ decRepr t),
      row1 := some ("HEX:0x" ++ (if t < 16 then "0" else "") ++ ucHex t),
      sink := none, pauseMs := 0, drewTarget := true }
  else
    let userInput := sampleByte sw
    if userInput = s.quizTarget then
      { state := ⟨s.quizTarget, false⟩, cleared := true,
        row0 := some "Correct!", row1 := none,
        sink := some userInput, pauseMs := 1000, drewTarget := false }
    else
      { state := s, cleared := false,
        row0 := none, row1 := some "Incorrect      ",
        sink := some userInput, pauseMs := 0, drewTarget := false }

/-- `const char *logicNames[4] = {"AND", "OR", "XOR", "XNOR"}`. -/
def logicNames : List String := ["AND", "OR", "XOR", "XNOR"]

/-- `byte logicType = map(potValue, 0, 1023, 0, 4)`, narrowed to `byte`. -/
def gateIndex (potValue : Nat) : Nat :=
  arduinoMap potValue 0 1023 0 4 % 256

/-- The `switch (logicType)` over the four gates.  With no matching case the
initialisation `byte result = 0` is kept.  The XNOR case embeds
`~(inputA ^ inputB) & 0x0F` (complement of the low nibble). -/
def logicResult (g a b : Nat) : Nat :=
  if g = 0 then a &&& b
  else if g = 1 then a ||| b
  else if g = 2 then a ^^^ b
  else if g = 3 then 15 ^^^ ((a ^^^ b) &&& 15)
  else 0

/-- The 4-bit MSB-first binary rendering loop `for (i = 3; i >= 0; i--)
lcd.print((x >> i) & 1)`. -/
def bin4 (x : Nat) : String :=
  decRepr ((x >>> 3) &&& 1) ++ decRepr ((x >>> 2) &&& 1) ++
    decRepr ((x >>> 1) &&& 1) ++ decRepr (x &&& 1)

/-- Observable effects of one `logicGateMode()` call. -/
structure LogicOut where
  inputA : Nat
  inputB : Nat
  logicType : Nat
  result : Nat
  sink : Nat
  nameLookup : Option String
  row0 : Option String
  row1 : String

/-- `logicGateMode()`.  `logicNames[i]` for `i ≥ 4` is an out-of-bounds
array read in the C source; the lookup is therefore modelled with
`List.get?`, and the row-0 render is only defined when it is in bounds. -/
def logicGateTick (sw : Nat → Bool) (potValue : Nat) : LogicOut :=
  let a := (sampleNibbles sw).1
  let b := (sampleNibbles sw).2
  let g := gateIndex potValue
  let r := logicResult g a b
  let nm := logicNames.get? g
  { inputA := a, inputB := b, logicType := g, result := r, sink := r,
    nameLookup := nm,
    row0 := nm.map (fun s => bin4 b ++ " " ++ s ++ " " ++ bin4 a ++ "  "),
    row1 := "DEC:" ++ decRepr r ++ " HEX:0x" ++ ucHex r ++ "  " }

/-- `adcMode()`: `byte mappedValue = map(rawValue, 0, 1023, 0, 255)`,
latched to the LEDs and rendered on both rows. -/
def adcTick (rawValue : Nat) : ModeOut :=
  let mappedValue := arduinoMap rawValue 0 1023 0 255 % 256
  { sink := mappedValue,
    row0 := "DEC:" ++ decRepr mappedValue ++ "     ",
    row1 := "HEX:0x" ++ (if mappedValue < 16 then "0" else "") ++
      ucHex mappedValue ++ "        " }

/-- Debounce state of `handleModeSwitch`: `bool lastButtonState`,
`unsigned long lastDebounce` and the function-static `bool buttonPressed`. -/
structure DebState where
  lastButtonState : Bool
  lastDebounce : Nat
  buttonPressed : Bool

/-- Initial debounce state: `lastButtonState = HIGH`, `lastDebounce = 0`,
`static bool buttonPressed = false`. -/
def debInit : DebState := ⟨true, 0, false⟩

/-- One call of `handleModeSwitch` restricted to its debounce and edge
logic.  `reading = true` models HIGH (released), `false` models LOW
(pressed); `now` is `millis()` for this tick (the two `millis()` calls in
one pass are modelled as a single sample).  Returns the updated state and
whether a press was confirmed on this tick. -/
def debStep (s : DebState) (now : Nat) (reading : Bool) : DebState × Bool :=
  let lastDeb := if reading != s.lastButtonState then now else s.lastDebounce
  if now - lastDeb > debounceDelay then
    if reading = false ∧ s.buttonPressed = false then
      (⟨reading, lastDeb, true⟩, true)
    else if reading = true then
      (⟨reading, lastDeb, false⟩, false)
    else
      (⟨reading, lastDeb, s.buttonPressed⟩, false)
  else
    (⟨reading, lastDeb, s.buttonPressed⟩, false)

/-- Run the edge detector over a list of `(millis, reading)` samples and
collect the per-tick confirmed-press flags. -/
def debRun (s : DebState) : List (Nat × Bool) → List Bool
  | [] => []
  | (t, r) :: rest => (debStep s t r).2 :: debRun (debStep s t r).1 rest

/-- Specification-side view of a sample history: each sample is annotated
with the time elapsed since the most recent raw level change (the same
recurrence the detector uses for `lastDebounce`). -/
def annotate : Bool → Nat → List (Nat × Bool) → List (Nat × Bool × Nat)
  | _, _, [] => []
  | lvl, chg, (t, r) :: rest =>
    let chg2 := if r != lvl then t else chg
    (t, r, t - chg2) :: annotate r chg2 rest

/-- Mode update of `handleModeSwitch`:
`currentMode = (currentMode + 1) % totalModes` on a confirmed press,
unchanged otherwise. -/
def modeStep (m : Nat) (ev : Bool) : Nat :=
  if ev then (m + 1) % totalModes else m

/-- Mode after a sequence of per-tick confirmed-press flags. -/
def modeRun (m : Nat) (evs : List Bool) : Nat := evs.foldl modeStep m

/-- Initial mode: `byte currentMode = 0`. -/
def initMode : Nat := 0

/-- Banner written by the `switch (currentMode)` of `handleModeSwitch`
after a transition (no case matches for `m ≥ 4`). -/
def modeName (m : Nat) : String :=
  if m = 0 then "Mode: Manual"
  else if m = 1 then "Mode: Quiz"
  else if m = 2 then "Mode: Logic"
  else if m = 3 then "Mode: ADC"
  else ""

/-- All mutable global state of the sketch. -/
structure AppState where
  currentMode : Nat
  deb : DebState
  quiz : QuizState

/-- The fixed external inputs sampled during one tick. -/
structure Inputs where
  button : Bool
  sw : Nat → Bool
  pot : Nat
  adc : Nat
  rand : Nat

/-- Observable effects of one pass of `loop()`. -/
structure TickOut where
  banner : Option String
  row0 : Option String
  row1 : Option String
  sink : Option Nat
  pauseMs : Nat

/-- Output of the three stateless modes (manual, logic-gate, ADC); the
final branch corresponds to no mode function being dispatched. -/
def pureModeOut (m : Nat) (inp : Inputs) : TickOut :=
  if m = 0 then
    let o := manualTick inp.sw
    ⟨none, some o.row0, some o.row1, some o.sink, 0⟩
  else if m = 2 then
    let o := logicGateTick inp.sw inp.pot
    ⟨none, o.row0, some o.row1, some o.sink, 0⟩
  else if m = 3 then
    let o := adcTick inp.adc
    ⟨none, some o.row0, some o.row1, some o.sink, 0⟩
  else
    ⟨none, none, none, none, 0⟩

/-- One pass of `loop()`: `handleModeSwitch()` (debounce, mode advance,
banner and quiz reset on a confirmed press) followed by the active mode. -/
def fullTick (s : AppState) (now : Nat) (inp : Inputs) : AppState × TickOut :=
  let d := debStep s.deb now inp.button
  let ev := d.2
  let mode := modeStep s.currentMode ev
  let qd := if ev then false else s.quiz.questionDisplayed
  let banner := if ev then some (modeName mode) else none
  if mode = 1 then
    let q := quizTick ⟨s.quiz.quizTarget, qd⟩ inp.rand inp.sw
    (⟨mode, d.1, q.state⟩, ⟨banner, q.row0, q.row1, q.sink, q.pauseMs⟩)
  else
    let o := pureModeOut mode inp
    (⟨mode, d.1, ⟨s.quiz.quizTarget, qd⟩⟩,
     ⟨banner, o.row0, o.row1, o.sink, o.pauseMs⟩)

/-- Iterate `fullTick` over a list of tick times with the inputs held
fixed, collecting the per-tick outputs. -/
def runTicks (s : AppState) (inp : Inputs) : List Nat → List TickOut
  | [] => []
  | t :: rest => (fullTick s t inp).2 :: runTicks (fullTick s t inp).1 inp rest

/-- Concrete fixed inputs for exercising the loop: button released, all
switches open, all analog inputs at zero. -/
def demoInputs : Inputs := ⟨true, fun _ => false, 0, 0, 0⟩

/-- Concrete start state for exercising the loop: Manual mode, initial
debounce state, no quiz question pending. -/
def demoState : AppState := ⟨0, debInit, ⟨0, false⟩⟩

/-- Specification-side definition: the 2-digit zero-padded uppercase
hexadecimal form of a byte. -/
def specHex2 (n : Nat) : String :=
  String.singleton (printDigit (n / 16 % 16)) ++ String.singleton (printDigit (n % 16))

/-- Unrolling of one nibble of the `sampleNibbles` loop, as a function of
the four switch levels that feed it (used to reason about the fold). -/
def nib (b0 b1 b2 b3 : Bool) : Nat :=
  let x0 := if b0 then 0 ||| (1 <<< 0) else 0
  let x1 := if b1 then x0 ||| (1 <<< 1) else x0
  let x2 := if b2 then x1 ||| (1 <<< 2) else x1
  if b3 then x2 ||| (1 <<< 3) else x2

set_option maxRecDepth 10000

/-! ## Helper lemmas -/

/-- The printNumber embedding agrees with the decimal numeral on bytes. -/
theorem decRepr_eq_repr : ∀ s : Fin 256, decRepr s.val = Nat.repr s.val := by
  decide

/-- The bit sampler reconstructs exactly the byte whose bits drive it. -/
theorem sampleByte_testBit :
    ∀ s : Fin 256, sampleByte (fun i => s.val.testBit i) = s.val := by
  decide

/-- The conditional zero pad plus unpadded uppercase hex print equals the
2-digit zero-padded uppercase hexadecimal form, on bytes. -/
theorem hexPad_eq_specHex2 :
    ∀ s : Fin 256, (if s.val < 16 then "0" else "") ++ ucHex s.val = specHex2 s.val := by
  decide

/-- Complementing the low nibble of a 4-bit value is subtraction from 15. -/
theorem xnor_low_nibble : ∀ x : Fin 16, 15 ^^^ (x.val &&& 15) = 15 - x.val := by
  decide

/-- The nibble fold computes `nib` on each half of the switch bank. -/
theorem sampleNibbles_eq (sw : Nat → Bool) :
    sampleNibbles sw =
      (nib (sw 0) (sw 1) (sw 2) (sw 3), nib (sw 4) (sw 5) (sw 6) (sw 7)) := rfl

/-- A sampled nibble is a 4-bit value. -/
theorem nib_lt : ∀ b0 b1 b2 b3 : Bool, nib b0 b1 b2 b3 < 16 := by decide

/-- Both operands sampled by logic-gate mode are 4-bit values. -/
theorem sampleNibbles_lt (sw : Nat → Bool) :
    (sampleNibbles sw).1 < 16 ∧ (sampleNibbles sw).2 < 16 := by
  rw [sampleNibbles_eq]
  exact ⟨nib_lt (sw 0) (sw 1) (sw 2) (sw 3), nib_lt (sw 4) (sw 5) (sw 6) (sw 7)⟩

/-- The switch over the gates always produces a 4-bit result when fed
4-bit operands (any index outside the four cases keeps the 0 init). -/
theorem logicResult_lt16 (g a b : Nat) (ha : a < 16) (hb : b < 16) :
    logicResult g a b < 16 := by
  have h2_4 : (2 : Nat) ^ 4 = 16 := by norm_num
  have ha4 : a < 2 ^ 4 := by rw [h2_4]; exact ha
  have hb4 : b < 2 ^ 4 := by rw [h2_4]; exact hb
  unfold logicResult
  split_ifs
  · exact lt_of_le_of_lt Nat.and_le_right hb
  · rw [← h2_4]; exact Nat.or_lt_two_pow ha4 hb4
  · rw [← h2_4]; exact Nat.xor_lt_two_pow ha4 hb4
  · have h15 : (15 : Nat) < 2 ^ 4 := by rw [h2_4]; norm_num
    have hand : (a ^^^ b) &&& 15 < 2 ^ 4 := by
      rw [h2_4]; exact lt_of_le_of_lt Nat.and_le_right (by norm_num)
    rw [← h2_4]; exact Nat.xor_lt_two_pow h15 hand
  · omega

/-- Folding the mode update over an event sequence adds the number of
confirmed presses, mod 4. -/
theorem modeRun_mod (evs : List Bool) :
    ∀ m : Nat, modeRun (m % 4) evs = (m + evs.count true) % 4 := by
  induction evs with
  | nil => intro m; simp [modeRun, List.foldl]
  | cons b rest ih =>
    intro m
    cases b with
    | true =>
      have h1 : modeStep (m % 4) true = (m + 1) % 4 := by
        simp [modeStep, totalModes]
      have h2 := ih (m + 1)
      simp only [modeRun, List.foldl] at h2 ⊢
      rw [h1, h2]
      simp [List.count_cons]
      omega
    | false =>
      have h1 : modeStep (m % 4) false = m % 4 := by simp [modeStep]
      have h2 := ih m
      simp only [modeRun, List.foldl] at h2 ⊢
      rw [h1, h2]
      simp [List.count_cons]

/-! ### Edge-detector step lemmas -/

/-- The detector always stores the current raw sample. -/
theorem debStep_lastButtonState (s : DebState) (now : Nat) (r : Bool) :
    (debStep s now r).1.lastButtonState = r := by
  simp only [debStep]
  split_ifs <;> rfl

/-- The detector updates the change timestamp exactly on a raw change. -/
theorem debStep_lastDebounce (s : DebState) (now : Nat) (r : Bool) :
    (debStep s now r).1.lastDebounce =
      (if r != s.lastButtonState then now else s.lastDebounce) := by
  simp only [debStep]
  split_ifs <;> rfl

/-- A confirmed press can only fire on an unchanged LOW sample that has
been stable longer than the window, with no press latched. -/
theorem debStep_event_elim (s : DebState) (now : Nat) (r : Bool)
    (h : (debStep s now r).2 = true) :
    r = s.lastButtonState ∧ r = false ∧ s.buttonPressed = false ∧
      now - s.lastDebounce > debounceDelay := by
  revert h
  simp only [debStep]
  split_ifs <;> simp_all [debounceDelay]

/-- Conversely, those four conditions force a confirmed press. -/
theorem debStep_event_intro (s : DebState) (now : Nat) (r : Bool)
    (h1 : r = s.lastButtonState) (h2 : r = false) (h3 : s.buttonPressed = false)
    (h4 : now - s.lastDebounce > debounceDelay) :
    (debStep s now r).2 = true := by
  subst h2
  simp only [debStep, ← h1]
  simp [h3, h4]

/-- A confirmed press latches the press flag. -/
theorem debStep_pressed_of_event (s : DebState) (now : Nat) (r : Bool)
    (h : (debStep s now r).2 = true) :
    (debStep s now r).1.buttonPressed = true := by
  revert h
  simp only [debStep]
  split_ifs <;> simp_all

/-- While the press flag is latched no further event fires. -/
theorem debStep_no_event_of_pressed (s : DebState) (now : Nat) (r : Bool)
    (hp : s.buttonPressed = true) :
    (debStep s now r).2 = false := by
  cases h : (debStep s now r).2
  · rfl
  · have h2 := debStep_event_elim s now r h
    rw [hp] at h2
    simp at h2

/-- An unlatched press flag stays unlatched on an event-free tick. -/
theorem debStep_pressed_false (s : DebState) (now : Nat) (r : Bool)
    (hp : s.buttonPressed = false) (hev : (debStep s now r).2 = false) :
    (debStep s now r).1.buttonPressed = false := by
  revert hev
  simp only [debStep]
  split_ifs <;> simp_all

/-- The latch survives any tick that is not a stable released sample. -/
theorem debStep_pressed_true (s : DebState) (now : Nat) (r : Bool)
    (hp : s.buttonPressed = true)
    (hnr : ¬(r = true ∧
      now - (if r != s.lastButtonState then now else s.lastDebounce) > debounceDelay)) :
    (debStep s now r).1.buttonPressed = true := by
  simp only [debStep]
  split_ifs <;> simp_all <;> omega

/-- A released level stable for longer than the window clears the latch. -/
theorem debStep_clear (s : DebState) (now : Nat)
    (hl : s.lastButtonState = true) (hst : now - s.lastDebounce > debounceDelay) :
    (debStep s now true).1.buttonPressed = false := by
  simp only [debStep]
  split_ifs <;> simp_all <;> omega

/-- A released sample never produces a confirmed press. -/
theorem debStep_no_event_released (s : DebState) (now : Nat) :
    (debStep s now true).2 = false := by
  cases h : (debStep s now true).2
  · rfl
  · have h2 := (debStep_event_elim s now true h).2.1
    simp at h2

/-! ### Edge-detector trace lemmas -/

/-- Soundness: wherever the run reports a confirmed press, the annotated
history shows a pressed sample whose level has been unchanged for longer
than the debounce window. -/
theorem debRun_sound : ∀ (tr : List (Nat × Bool)) (s : DebState),
    List.Forall₂ (fun (e : Bool) (a : Nat × Bool × Nat) =>
      e = true → a.2.1 = false ∧ a.2.2 > debounceDelay)
      (debRun s tr) (annotate s.lastButtonState s.lastDebounce tr) := by
  intro tr
  induction tr with
  | nil => intro s; simp [debRun, annotate]
  | cons hd rest ih =>
    intro s
    obtain ⟨t, r⟩ := hd
    simp only [debRun, annotate]
    constructor
    · intro hev
      obtain ⟨hrl, hrf, hpf, hgt⟩ := debStep_event_elim s t r hev
      have hb : (r != s.lastButtonState) = false := by rw [hrl]; simp
      simp only [hb, Bool.false_eq_true, if_false]
      exact ⟨hrf, hgt⟩
    · have h1 := debStep_lastButtonState s t r
      have h2 := debStep_lastDebounce s t r
      have h3 := ih (debStep s t r).1
      rw [h1, h2] at h3
      exact h3

/-- A trace in which no pressed sample has ever been stable for longer
than the window produces no confirmed press at all. -/
theorem debRun_no_short_press : ∀ (tr : List (Nat × Bool)) (s : DebState),
    s.buttonPressed = false →
    (∀ a ∈ annotate s.lastButtonState s.lastDebounce tr,
      a.2.1 = false → a.2.2 ≤ debounceDelay) →
    debRun s tr = List.replicate tr.length false := by
  intro tr
  induction tr with
  | nil => intro s _ _; rfl
  | cons hd rest ih =>
    intro s hp hshort
    obtain ⟨t, r⟩ := hd
    have hev : (debStep s t r).2 = false := by
      cases hevc : (debStep s t r).2
      · rfl
      · obtain ⟨hrl, hrf, hpf, hgt⟩ := debStep_event_elim s t r hevc
        have hb : (r != s.lastButtonState) = false := by rw [hrl]; simp
        have hmem : (t, r, t - s.lastDebounce) ∈
            annotate s.lastButtonState s.lastDebounce ((t, r) :: rest) := by
          simp only [annotate, hb, Bool.false_eq_true, if_false]
          exact List.mem_cons_self _ _
        have h4 : t - s.lastDebounce ≤ debounceDelay := hshort _ hmem hrf
        omega
    have hp2 : (debStep s t r).1.buttonPressed = false :=
      debStep_pressed_false s t r hp hev
    have hshort2 : ∀ a ∈ annotate (debStep s t r).1.lastButtonState
        (debStep s t r).1.lastDebounce rest, a.2.1 = false → a.2.2 ≤ debounceDelay := by
      rw [debStep_lastButtonState, debStep_lastDebounce]
      intro a ha
      apply hshort
      simp only [annotate]
      exact List.mem_cons_of_mem _ ha
    simp only [debRun, hev, List.length_cons, List.replicate_succ]
    exact congrArg (List.cons false) (ih _ hp2 hshort2)

/-- Once a press is latched, no further event fires while the history
contains no released sample stable for longer than the window — the
no-duplicate half of the contract. -/
theorem debRun_latched_quiet : ∀ (tr : List (Nat × Bool)) (s : DebState),
    s.buttonPressed = true →
    (∀ a ∈ annotate s.lastButtonState s.lastDebounce tr,
      ¬(a.2.1 = true ∧ a.2.2 > debounceDelay)) →
    debRun s tr = List.replicate tr.length false := by
  intro tr
  induction tr with
  | nil => intro s _ _; rfl
  | cons hd rest ih =>
    intro s hp hq
    obtain ⟨t, r⟩ := hd
    have hev : (debStep s t r).2 = false := debStep_no_event_of_pressed s t r hp
    have hhead : (t, r, t - (if r != s.lastButtonState then t else s.lastDebounce)) ∈
        annotate s.lastButtonState s.lastDebounce ((t, r) :: rest) := by
      simp only [annotate]
      exact List.mem_cons_self _ _
    have hp2 : (debStep s t r).1.buttonPressed = true := by
      refine debStep_pressed_true s t r hp ?_
      intro hcontra
      exact hq _ hhead ⟨hcontra.1, hcontra.2⟩
    have hq2 : ∀ a ∈ annotate (debStep s t r).1.lastButtonState
        (debStep s t r).1.lastDebounce rest, ¬(a.2.1 = true ∧ a.2.2 > debounceDelay) := by
      rw [debStep_lastButtonState, debStep_lastDebounce]
      intro a ha
      apply hq
      simp only [annotate]
      exact List.mem_cons_of_mem _ ha
    simp only [debRun, hev, List.length_cons, List.replicate_succ]
    exact congrArg (List.cons false) (ih _ hp2 hq2)

/-- Completeness: starting with the latch clear, a pressed sample that has
been stable for longer than the window guarantees a confirmed press
somewhere in the run. -/
theorem debRun_complete : ∀ (tr : List (Nat × Bool)) (s : DebState),
    s.buttonPressed = false →
    (∃ a ∈ annotate s.lastButtonState s.lastDebounce tr,
      a.2.1 = false ∧ a.2.2 > debounceDelay) →
    ∃ e ∈ debRun s tr, e = true := by
  intro tr
  induction tr with
  | nil =>
    intro s _ hex
    simp [annotate] at hex
  | cons hd rest ih =>
    intro s hp hex
    obtain ⟨t, r⟩ := hd
    cases hevc : (debStep s t r).2 with
    | true =>
      refine ⟨true, ?_, rfl⟩
      simp only [debRun, hevc]
      exact List.mem_cons_self _ _
    | false =>
      have hp2 : (debStep s t r).1.buttonPressed = false :=
        debStep_pressed_false s t r hp hevc
      obtain ⟨a, ha, haf, hagt⟩ := hex
      simp only [annotate, List.mem_cons] at ha
      rcases ha with hhead | htail
      · exfalso
        subst hhead
        cases hb : r != s.lastButtonState with
        | true =>
          rw [hb] at hagt
          simp at hagt
        | false =>
          have hrl : r = s.lastButtonState := by
            cases r <;> cases hlv : s.lastButtonState <;> rw [hlv] at hb <;>
              simp_all
          rw [hb] at hagt haf
          simp only [Bool.false_eq_true, if_false] at hagt haf
          have hin := debStep_event_intro s t r hrl haf hp hagt
          rw [hevc] at hin
          exact Bool.false_ne_true hin
      · have hex2 : ∃ a ∈ annotate (debStep s t r).1.lastButtonState
            (debStep s t r).1.lastDebounce rest, a.2.1 = false ∧ a.2.2 > debounceDelay := by
          rw [debStep_lastButtonState, debStep_lastDebounce]
          exact ⟨a, htail, haf, hagt⟩
        obtain ⟨e, he, het⟩ := ih _ hp2 hex2
        refine ⟨e, ?_, het⟩
        simp only [debRun]
        exact List.mem_cons_of_mem _ he

/-! ### Loop-level lemmas -/

/-- The stateless-mode dispatcher never writes a banner. -/
theorem pureModeOut_banner (m : Nat) (inp : Inputs) :
    (pureModeOut m inp).banner = none := by
  simp only [pureModeOut]
  split_ifs <;> rfl

/-- With the mode button released and the quiz inactive, one loop pass
keeps the mode and produces exactly the stateless-mode output. -/
theorem fullTick_released (s : AppState) (now : Nat) (inp : Inputs)
    (hb : inp.button = true) (hm : s.currentMode ≠ 1) :
    (fullTick s now inp).1.currentMode = s.currentMode ∧
      (fullTick s now inp).2 = pureModeOut s.currentMode inp := by
  have hev : (debStep s.deb now inp.button).2 = false := by
    rw [hb]
    exact debStep_no_event_released s.deb now
  have heta : (⟨none, (pureModeOut s.currentMode inp).row0,
      (pureModeOut s.currentMode inp).row1, (pureModeOut s.currentMode inp).sink,
      (pureModeOut s.currentMode inp).pauseMs⟩ : TickOut) =
      pureModeOut s.currentMode inp := by
    rw [← pureModeOut_banner s.currentMode inp]
  constructor
  · simp [fullTick, hev, modeStep, hm]
  · simp [fullTick, hev, modeStep, hm]
    exact heta

/-- With the button released and a stateless mode active, every tick of
the loop emits the same output. -/
theorem runTicks_const (times : List Nat) : ∀ (s : AppState) (inp : Inputs),
    inp.button = true → s.currentMode ≠ 1 →
    runTicks s inp times =
      List.replicate times.length (pureModeOut s.currentMode inp) := by
  induction times with
  | nil => intros; rfl
  | cons t rest ih =>
    intro s inp hb hm
    have h := fullTick_released s t inp hb hm
    simp only [runTicks, List.length_cons, List.replicate_succ]
    rw [h.2, ih (fullTick s t inp).1 inp hb (by rw [h.1]; exact hm), h.1]

/-! ## Claim theorems -/

/-- C1: the spec says the gate index is `floor(v * 4 / 1024)` clamped to
[0,3], so the chosen gate is always one of the four — including at
v = 1023.  The code agrees with that formula on v ∈ [0,1022] but computes
`map(v, 0, 1023, 0, 4)` = `floor(v * 4 / 1023)` with no clamp, which is 4
at v = 1023: no gate matches and the name lookup is out of bounds, a slip
contradicting the code's own comment that the range is mapped to 0-3. -/
theorem C1_gate_quantization_endpoint :
    gateIndex 1023 = 4 ∧ logicNames.get? (gateIndex 1023) = none ∧
      (∀ v : Fin 1023, gateIndex v.val = v.val * 4 / 1024 ∧ gateIndex v.val ≤ 3) :=
  ⟨by decide, by decide, by decide⟩

/-- C2: at selector reading 1023 the computed gate index is 4; it matches
no case of the result switch, so the value pushed to the Output Sink is 0
regardless of the switch inputs, and index 4 is out of bounds for the
4-element gate-name array. -/
theorem C2_endpoint_out_of_range :
    gateIndex 1023 = 4 ∧ logicNames.length = 4 ∧
      (∀ sw : Nat → Bool,
        (logicGateTick sw 1023).logicType = 4 ∧
        (logicGateTick sw 1023).sink = 0 ∧
        (logicGateTick sw 1023).nameLookup = none) := by
  have hg : gateIndex 1023 = 4 := by decide
  refine ⟨hg, rfl, fun sw => ?_⟩
  simp [logicGateTick, hg, logicResult, logicNames]

/-- C3: for every 8-bit switch vector s, Manual mode pushes s to the
Output Sink, renders the decimal numeral of s on row 0, and renders the
2-digit zero-padded uppercase hexadecimal form of s on row 1. -/
theorem C3_manual_mode_render (s : Nat) (hs : s < 256) :
    (manualTick (fun i => s.testBit i)).sink = s ∧
      (manualTick (fun i => s.testBit i)).row0 = "DEC:" ++ Nat.repr s ++ "      " ∧
      (manualTick (fun i => s.testBit i)).row1 = "HEX:0x" ++ specHex2 s ++ "   " := by
  have h1 : sampleByte (fun i => s.testBit i) = s := sampleByte_testBit ⟨s, hs⟩
  have h2 : decRepr s = Nat.repr s := decRepr_eq_repr ⟨s, hs⟩
  have h3 : (if s < 16 then "0" else "") ++ ucHex s = specHex2 s :=
    hexPad_eq_specHex2 ⟨s, hs⟩
  refine ⟨by simp [manualTick, h1], by simp [manualTick, h1, h2], ?_⟩
  simp only [manualTick, h1]
  rw [← h3]
  simp [String.append_assoc]

/-- Witness for C3 at the concrete switch vector 170 = 0b10101010. -/
theorem C3_manual_mode_render_witness :
    (manualTick (fun i => (170 : Nat).testBit i)).sink = 170 ∧
      (manualTick (fun i => (170 : Nat).testBit i)).row0 =
        "DEC:" ++ Nat.repr 170 ++ "      " ∧
      (manualTick (fun i => (170 : Nat).testBit i)).row1 =
        "HEX:0x" ++ specHex2 170 ++ "   " :=
  C3_manual_mode_render 170 (by decide)

/-- C6: in Logic-Gate mode, for 4-bit operands A and B and gate index in
[0,3] the computed result is A AND B, A OR B, A XOR B or NOT(A XOR B)
masked to 4 bits respectively; the result is 4-bit (so its 8-bit zero
extension — the byte actually shifted out — is itself) and it is the value
pushed to the Output Sink; A=0b1010, B=0b1100 give 0b1000, 0b1110, 0b0110
and 0b1001. -/
theorem C6_logic_gate_ops (a b g : Nat) (ha : a < 16) (hb : b < 16) (hg : g < 4) :
    logicResult g a b < 16 ∧
      (g = 0 → logicResult g a b = a &&& b) ∧
      (g = 1 → logicResult g a b = a ||| b) ∧
      (g = 2 → logicResult g a b = a ^^^ b) ∧
      (g = 3 → logicResult g a b = 15 - (a ^^^ b)) ∧
      (∀ sw : Nat → Bool, ∀ pot : Nat,
        (logicGateTick sw pot).sink = (logicGateTick sw pot).result ∧
        (logicGateTick sw pot).sink % 256 = (logicGateTick sw pot).sink) ∧
      logicResult 0 10 12 = 8 ∧ logicResult 1 10 12 = 14 ∧
      logicResult 2 10 12 = 6 ∧ logicResult 3 10 12 = 9 := by
  have h2_4 : (2 : Nat) ^ 4 = 16 := by norm_num
  refine ⟨logicResult_lt16 g a b ha hb, ?_, ?_, ?_, ?_, ?_,
    by decide, by decide, by decide, by decide⟩
  · intro h; simp [logicResult, h]
  · intro h; simp [logicResult, h]
  · intro h; simp [logicResult, h]
  · intro h
    subst h
    have hx : a ^^^ b < 16 := by
      rw [← h2_4]
      exact Nat.xor_lt_two_pow (h2_4 ▸ ha) (h2_4 ▸ hb)
    have hs := xnor_low_nibble ⟨a ^^^ b, hx⟩
    simpa [logicResult] using hs
  · intro sw pot
    refine ⟨rfl, ?_⟩
    have hlt : (logicGateTick sw pot).sink < 16 :=
      logicResult_lt16 _ _ _ (sampleNibbles_lt sw).1 (sampleNibbles_lt sw).2
    exact Nat.mod_eq_of_lt (by omega)

/-- Witness for C6 at A = 10, B = 12, gate = XOR. -/
theorem C6_logic_gate_ops_witness :
    logicResult 2 10 12 < 16 ∧
      ((2 : Nat) = 0 → logicResult 2 10 12 = 10 &&& 12) ∧
      ((2 : Nat) = 1 → logicResult 2 10 12 = 10 ||| 12) ∧
      ((2 : Nat) = 2 → logicResult 2 10 12 = 10 ^^^ 12) ∧
      ((2 : Nat) = 3 → logicResult 2 10 12 = 15 - (10 ^^^ 12)) ∧
      (∀ sw : Nat → Bool, ∀ pot : Nat,
        (logicGateTick sw pot).sink = (logicGateTick sw pot).result ∧
        (logicGateTick sw pot).sink % 256 = (logicGateTick sw pot).sink) ∧
      logicResult 0 10 12 = 8 ∧ logicResult 1 10 12 = 14 ∧
      logicResult 2 10 12 = 6 ∧ logicResult 3 10 12 = 9 :=
  C6_logic_gate_ops 10 12 2 (by decide) (by decide) (by decide)

/-- C5: the Mode Controller starts in Manual (mode 0); after N confirmed
presses the active mode is N mod 4 in the cyclic order
Manual → Quiz → Logic → ADC → Manual, and a tick without a confirmed press
never changes the mode. -/
theorem C5_mode_controller :
    initMode = 0 ∧ modeName initMode = "Mode: Manual" ∧
      modeName 1 = "Mode: Quiz" ∧ modeName 2 = "Mode: Logic" ∧
      modeName 3 = "Mode: ADC" ∧
      (∀ m : Nat, modeStep m false = m) ∧
      (∀ evs : List Bool, modeRun initMode evs = evs.count true % 4) := by
  refine ⟨rfl, rfl, rfl, rfl, rfl, fun m => by simp [modeStep], fun evs => ?_⟩
  have h := modeRun_mod evs 0
  simpa [initMode] using h

/-- C8: in Quiz mode, once a target has been generated and shown, a tick
whose sampled switch vector equals the target clears the display, shows
"Correct!", performs the single fixed 1-second pause, keeps the target and
moves to the needs-target state; the following tick draws exactly one new
target — the oracle draw reduced to [0,255] — shows it and returns before
reading the switches. -/
theorem C8_quiz_correct_flow (st : QuizState) (sw sw2 : Nat → Bool) (r1 r2 : Nat)
    (hd : st.questionDisplayed = true) (hm : sampleByte sw = st.quizTarget) :
    (quizTick st r1 sw).cleared = true ∧
      (quizTick st r1 sw).row0 = some "Correct!" ∧
      (quizTick st r1 sw).pauseMs = 1000 ∧
      (quizTick st r1 sw).drewTarget = false ∧
      (quizTick st r1 sw).state.questionDisplayed = false ∧
      (quizTick st r1 sw).state.quizTarget = st.quizTarget ∧
      (quizTick (quizTick st r1 sw).state r2 sw2).drewTarget = true ∧
      (quizTick (quizTick st r1 sw).state r2 sw2).pauseMs = 0 ∧
      (quizTick (quizTick st r1 sw).state r2 sw2).sink = none ∧
      (quizTick (quizTick st r1 sw).state r2 sw2).state.questionDisplayed = true ∧
      (quizTick (quizTick st r1 sw).state r2 sw2).state.quizTarget = r2 % 256 ∧
      (quizTick (quizTick st r1 sw).state r2 sw2).state.quizTarget < 256 := by
  have hlt : r2 % 256 < 256 := by omega
  simp [quizTick, hd, hm, hlt]

/-- Witness for C8: target 5 already shown, switches set to 5, next oracle
draw 300. -/
theorem C8_quiz_correct_flow_witness :
    (quizTick ⟨5, true⟩ 0 (fun i => (5 : Nat).testBit i)).cleared = true ∧
      (quizTick ⟨5, true⟩ 0 (fun i => (5 : Nat).testBit i)).row0 = some "Correct!" ∧
      (quizTick ⟨5, true⟩ 0 (fun i => (5 : Nat).testBit i)).pauseMs = 1000 ∧
      (quizTick ⟨5, true⟩ 0 (fun i => (5 : Nat).testBit i)).drewTarget = false ∧
      (quizTick ⟨5, true⟩ 0
        (fun i => (5 : Nat).testBit i)).state.questionDisplayed = false ∧
      (quizTick ⟨5, true⟩ 0
        (fun i => (5 : Nat).testBit i)).state.quizTarget = (⟨5, true⟩ : QuizState).quizTarget ∧
      (quizTick (quizTick ⟨5, true⟩ 0 (fun i => (5 : Nat).testBit i)).state 300
        (fun i => (5 : Nat).testBit i)).drewTarget = true ∧
      (quizTick (quizTick ⟨5, true⟩ 0 (fun i => (5 : Nat).testBit i)).state 300
        (fun i => (5 : Nat).testBit i)).pauseMs = 0 ∧
      (quizTick (quizTick ⟨5, true⟩ 0 (fun i => (5 : Nat).testBit i)).state 300
        (fun i => (5 : Nat).testBit i)).sink = none ∧
      (quizTick (quizTick ⟨5, true⟩ 0 (fun i => (5 : Nat).testBit i)).state 300
        (fun i => (5 : Nat).testBit i)).state.questionDisplayed = true ∧
      (quizTick (quizTick ⟨5, true⟩ 0 (fun i => (5 : Nat).testBit i)).state 300
        (fun i => (5 : Nat).testBit i)).state.quizTarget = 300 % 256 ∧
      (quizTick (quizTick ⟨5, true⟩ 0 (fun i => (5 : Nat).testBit i)).state 300
        (fun i => (5 : Nat).testBit i)).state.quizTarget < 256 :=
  C8_quiz_correct_flow ⟨5, true⟩ (fun i => (5 : Nat).testBit i)
    (fun i => (5 : Nat).testBit i) 0 300 rfl (by decide)

/-- C9: in Quiz mode a mismatching tick writes only row 1 (the padded
"Incorrect" text): no clear, no row-0 write, no pause, no draw, and both
the stored target and the pending flag are unchanged. -/
theorem C9_quiz_mismatch_frame (st : QuizState) (sw : Nat → Bool) (r : Nat)
    (hd : st.questionDisplayed = true) (hm : sampleByte sw ≠ st.quizTarget) :
    (quizTick st r sw).cleared = false ∧
      (quizTick st r sw).row0 = none ∧
      (quizTick st r sw).row1 = some "Incorrect      " ∧
      (quizTick st r sw).state.quizTarget = st.quizTarget ∧
      (quizTick st r sw).state.questionDisplayed = true ∧
      (quizTick st r sw).pauseMs = 0 ∧
      (quizTick st r sw).drewTarget = false := by
  simp [quizTick, hd, hm]

/-- Witness for C9: target 5 shown, switches set to 6. -/
theorem C9_quiz_mismatch_frame_witness :
    (quizTick ⟨5, true⟩ 0 (fun i => (6 : Nat).testBit i)).cleared = false ∧
      (quizTick ⟨5, true⟩ 0 (fun i => (6 : Nat).testBit i)).row0 = none ∧
      (quizTick ⟨5, true⟩ 0
        (fun i => (6 : Nat).testBit i)).row1 = some "Incorrect      " ∧
      (quizTick ⟨5, true⟩ 0
        (fun i => (6 : Nat).testBit i)).state.quizTarget = (⟨5, true⟩ : QuizState).quizTarget ∧
      (quizTick ⟨5, true⟩ 0
        (fun i => (6 : Nat).testBit i)).state.questionDisplayed = true ∧
      (quizTick ⟨5, true⟩ 0 (fun i => (6 : Nat).testBit i)).pauseMs = 0 ∧
      (quizTick ⟨5, true⟩ 0 (fun i => (6 : Nat).testBit i)).drewTarget = false :=
  C9_quiz_mismatch_frame ⟨5, true⟩ (fun i => (6 : Nat).testBit i) 0 rfl (by decide)

/-- C7: in ADC mode every raw reading in [0,1023] is pushed to the Output
Sink and rendered as `floor(raw * 255 / 1023)`; in particular 0 ↦ 0,
512 ↦ 127 and 1023 ↦ 255. -/
theorem C7_adc_linear_map (raw : Nat) (h : raw ≤ 1023) :
    (adcTick raw).sink = raw * 255 / 1023 ∧
      (adcTick raw).row0 = "DEC:" ++ decRepr (raw * 255 / 1023) ++ "     " ∧
      (adcTick 0).sink = 0 ∧ (adcTick 512).sink = 127 ∧
      (adcTick 1023).sink = 255 := by
  have h1 : raw * 255 ≤ 1023 * 255 := Nat.mul_le_mul_right _ h
  have hle : raw * 255 / 1023 ≤ 255 := by
    calc raw * 255 / 1023 ≤ 1023 * 255 / 1023 := Nat.div_le_div_right h1
      _ = 255 := by norm_num
  have hmod : raw * 255 / 1023 % 256 = raw * 255 / 1023 :=
    Nat.mod_eq_of_lt (by omega)
  refine ⟨?_, ?_, by decide, by decide, by decide⟩ <;>
    simp [adcTick, arduinoMap, hmod]

/-- C4, counterexample to the claim as stated: the detector samples
released at t=300, pressed from t=400 on, and the pressed level is then
held unchanged well past the 50 ms window (elapsed 100 ms at t=500 and
200 ms at t=600, per the annotations) — a qualifying released→pressed
transition under the claim's reading — yet the run reports no confirmed
press after the one at t=200, because the sub-window release at t=300-400
never cleared the press latch. -/
theorem C4_edge_detector_raw_cex :
    debRun debInit
        [(100, false), (200, false), (300, true), (400, false), (500, false), (600, false)] =
      [false, true, false, false, false, false] ∧
      annotate debInit.lastButtonState debInit.lastDebounce
          [(100, false), (200, false), (300, true), (400, false), (500, false), (600, false)] =
        [(100, false, 0), (200, false, 100), (300, true, 0), (400, false, 0),
          (500, false, 100), (600, false, 200)] := by
  decide

/-- C4, amended: the Edge Detector starts unlatched; it emits a confirmed
press only on a pressed sample whose raw level has been unchanged for
longer than the 50 ms window (soundness); a trace whose pressed samples
are never stable beyond the window emits nothing (short presses are
dropped); an event latches the press flag, the latch suppresses all
further events, and it stays latched until a released sample stable
beyond the window clears it (exactly one event per debounce-confirmed
transition, no duplicates while held); and from the unlatched state a
pressed sample stable beyond the window guarantees an event
(completeness). -/
theorem C4_edge_detector_amended :
    debInit.buttonPressed = false ∧
      (∀ (s : DebState) (tr : List (Nat × Bool)),
        List.Forall₂ (fun (e : Bool) (a : Nat × Bool × Nat) =>
          e = true → a.2.1 = false ∧ a.2.2 > debounceDelay)
          (debRun s tr) (annotate s.lastButtonState s.lastDebounce tr)) ∧
      (∀ (s : DebState) (tr : List (Nat × Bool)), s.buttonPressed = false →
        (∀ a ∈ annotate s.lastButtonState s.lastDebounce tr,
          a.2.1 = false → a.2.2 ≤ debounceDelay) →
        debRun s tr = List.replicate tr.length false) ∧
      (∀ (s : DebState) (now : Nat) (r : Bool), (debStep s now r).2 = true →
        (debStep s now r).1.buttonPressed = true) ∧
      (∀ (s : DebState) (now : Nat) (r : Bool), s.buttonPressed = true →
        (debStep s now r).2 = false) ∧
      (∀ (s : DebState) (tr : List (Nat × Bool)), s.buttonPressed = true →
        (∀ a ∈ annotate s.lastButtonState s.lastDebounce tr,
          ¬(a.2.1 = true ∧ a.2.2 > debounceDelay)) →
        debRun s tr = List.replicate tr.length false) ∧
      (∀ (s : DebState) (now : Nat), s.lastButtonState = true →
        now - s.lastDebounce > debounceDelay →
        (debStep s now true).1.buttonPressed = false) ∧
      (∀ (s : DebState) (tr : List (Nat × Bool)), s.buttonPressed = false →
        (∃ a ∈ annotate s.lastButtonState s.lastDebounce tr,
          a.2.1 = false ∧ a.2.2 > debounceDelay) →
        ∃ e ∈ debRun s tr, e = true) :=
  ⟨rfl, fun s tr => debRun_sound tr s,
    fun s tr => debRun_no_short_press tr s,
    debStep_pressed_of_event,
    debStep_no_event_of_pressed,
    fun s tr => debRun_latched_quiet tr s,
    debStep_clear,
    fun s tr => debRun_complete tr s⟩

/-- Witness for C4 (completeness conjunct) on a concrete two-sample press
held past the window. -/
theorem C4_edge_detector_amended_witness :
    ∃ e ∈ debRun debInit [(100, false), (200, false)], e = true :=
  C4_edge_detector_amended.2.2.2.2.2.2.2 debInit [(100, false), (200, false)]
    rfl (by decide)

/-- C10: with the mode button released and any of the three stateless
modes (Manual, Logic-Gate, ADC) active, repeated loop passes over any
sequence of tick times with the switch and analog inputs held fixed all
produce identical outputs — the same rendered rows and the same Output
Sink value on every tick. -/
theorem C10_stateless_determinism (s : AppState) (inp : Inputs) (times : List Nat)
    (hb : inp.button = true)
    (hm : s.currentMode = 0 ∨ s.currentMode = 2 ∨ s.currentMode = 3) :
    ∀ o1 ∈ runTicks s inp times, ∀ o2 ∈ runTicks s inp times, o1 = o2 := by
  have hne : s.currentMode ≠ 1 := by rcases hm with h | h | h <;> omega
  intro o1 h1 o2 h2
  rw [runTicks_const times s inp hb hne] at h1 h2
  rw [List.eq_of_mem_replicate h1, List.eq_of_mem_replicate h2]

/-- Witness for C10: two consecutive ticks in Manual mode with all
switches open produce the same output. -/
theorem C10_stateless_determinism_witness :
    (fullTick demoState 0 demoInputs).2 =
      (fullTick (fullTick demoState 0 demoInputs).1 100 demoInputs).2 :=
  C10_stateless_determinism demoState demoInputs [0, 100] rfl (Or.inl rfl)
    _ (List.mem_cons_self _ _) _
    (List.mem_cons_of_mem _ (List.mem_cons_self _ _))

/-- Witness for C7 at the concrete reading 512. -/
theorem C7_adc_linear_map_witness :
    (adcTick 512).sink = 512 * 255 / 1023 ∧
      (adcTick 512).row0 = "DEC:" ++ decRepr (512 * 255 / 1023) ++ "     " ∧
      (adcTick 0).sink = 0 ∧ (adcTick 512).sink = 127 ∧
      (adcTick 1023).sink = 255 :=
  C7_adc_linear_map 512 (by decide)

end GroupProject
